import Mathlib

/-!
Shallow embedding of `src/02_load_data.py` (`load_data_to_sql`): the script
checks that the configured CSV file exists, parses it with the dataframe
library, prints a preview, opens a database connection inside a `with` block
that only prints a status line, appends the dataframe's rows to the table
`dbo.Customers` with mode `append` and `index=False`, and returns a boolean;
every exception after the existence check is caught and reported.

The effectful world is made explicit: the file system, the outcome of the
connection attempt and of the write are inputs, and the run's observable
behaviour is its boolean result, the final table contents and a trace of
observable events (prints and resource actions), in order.
-/

namespace ChurnPredictor

/-- A cell of tabular data; `none` models a null/NaN value. -/
abbrev Cell := Option String

/-- A data row: the cells in column order. -/
abbrev Row := List Cell

/-- The in-memory Source Record Set produced by the dataframe library:
column names (from the header row) and the data rows. -/
structure DataFrame where
  cols : List String
  rows : List Row
  deriving DecidableEq

/-- The configured project root (`Path(__file__).parent.parent`). -/
def PROJECT_ROOT : String := ".."

/-- The configured CSV path constant of the script. -/
def CSV_PATH : String := PROJECT_ROOT ++ "/data/WA_Fn-UseC_-Telco-Customer-Churn.csv"

/-- State of the file at `CSV_PATH`: absent, present but unparsable
(the parse raises with a message), or a well-formed CSV with a header row
and data rows. -/
inductive FileState where
  | absent : FileState
  | malformed (msg : String) : FileState
  | wellFormed (header : List String) (data : List Row) : FileState
  deriving DecidableEq

/-- Outcome of the `to_sql` write: success, or a raised exception with a
message after `written` rows of the payload were already inserted (the
store's atomicity is outside the script's control). -/
inductive WriteOutcome where
  | ok : WriteOutcome
  | fail (msg : String) (written : Nat) : WriteOutcome
  deriving DecidableEq

/-- The world a single invocation runs in: the file state, the outcome the
database would give to a connection attempt and to a write, and the rows the
Target Table holds before the run. -/
structure World where
  file : FileState
  connect : Except String Unit
  write : WriteOutcome
  table : List Row

/-- Observable events of a run, in order: the prints of the script and the
resource actions (connection open/close, the row append). -/
inductive Event where
  | errFileNotFound (path : String) : Event
  | reading : Event
  | loadedSummary (nrows ncols : Nat) : Event
  | previewHead (rows : List Row) : Event
  | columnsList (cols : List String) : Event
  | missingReport (m : List (String × Nat)) : Event
  | connecting : Event
  | openConn : Event
  | connected : Event
  | closeConn : Event
  | uploading : Event
  | write (cols : List String) (rows : List Row) : Event
  | success (nrows : Nat) : Event
  | ready : Event
  | errGeneric (msg : String) : Event
  deriving DecidableEq

/-- What a run returns and leaves behind: the boolean result, the Target
Table's rows after the run, and the ordered event trace. -/
structure RunResult where
  result : Bool
  table : List Row
  trace : List Event
  deriving DecidableEq

/-- Nulls in column `j` of the dataframe (`df.isnull().sum()` for one column). -/
def colNullCount (df : DataFrame) (j : Nat) : Nat :=
  df.rows.countP fun r => (r.getD j (some "")).isNone

/-- The columns holding missing values with their null counts, in column
order (`df.isnull().sum()[df.isnull().sum() > 0]`). -/
def missingCounts (df : DataFrame) : List (String × Nat) :=
  (df.cols.enum.map fun p => (p.2, colNullCount df p.1)).filter fun p => p.2 != 0

/-- The preview prints: row/column counts, `df.head(3)`, the column list,
and the missing-value report when any column has nulls. -/
def previewTrace (df : DataFrame) : List Event :=
  [Event.loadedSummary df.rows.length df.cols.length,
   Event.previewHead (df.rows.take 3),
   Event.columnsList df.cols] ++
  (if missingCounts df = [] then [] else [Event.missingReport (missingCounts df)])

/-- The frame `to_sql` actually writes: with `index=True` pandas would
prepend the synthetic integer index as a column; the script passes
`index=False`, so the frame is written as parsed. -/
def toSqlFrame (df : DataFrame) (index : Bool) : DataFrame :=
  if index then
    { cols := "index" :: df.cols,
      rows := df.rows.enum.map fun p => (some (toString p.1)) :: p.2 }
  else df

/-- The embedding of `load_data_to_sql`: a total function of the world.
Mirrors the script: existence check; `read_csv`; the preview prints;
`create_engine` and `with engine.connect()` (open, status print, close);
`to_sql('Customers', engine, schema='dbo', if_exists='append', index=False)`;
the success prints; `return True` — with the `except` clause catching every
raised step and returning `False` after printing the message. -/
def load_data_to_sql (w : World) : RunResult :=
  match w.file with
  | .absent => ⟨false, w.table, [Event.errFileNotFound CSV_PATH]⟩
  | .malformed msg => ⟨false, w.table, [Event.reading, Event.errGeneric msg]⟩
  | .wellFormed header data =>
    let df : DataFrame := ⟨header, data⟩
    let pre := Event.reading :: previewTrace df ++ [Event.connecting]
    match w.connect with
    | .error msg => ⟨false, w.table, pre ++ [Event.errGeneric msg]⟩
    | .ok _ =>
      let pre2 := pre ++ [Event.openConn, Event.connected, Event.closeConn, Event.uploading]
      let payload := toSqlFrame df false
      match w.write with
      | .fail msg k =>
          ⟨false, w.table ++ payload.rows.take k, pre2 ++ [Event.errGeneric msg]⟩
      | .ok =>
          ⟨true, w.table ++ payload.rows,
           pre2 ++ [Event.write payload.cols payload.rows,
                    Event.success df.rows.length, Event.ready]⟩

/-- The same routine with the preview step removed: used to state that the
preview is purely observational. -/
def loadNoPreview (w : World) : RunResult :=
  match w.file with
  | .absent => ⟨false, w.table, [Event.errFileNotFound CSV_PATH]⟩
  | .malformed msg => ⟨false, w.table, [Event.reading, Event.errGeneric msg]⟩
  | .wellFormed header data =>
    let df : DataFrame := ⟨header, data⟩
    let pre := [Event.reading, Event.connecting]
    match w.connect with
    | .error msg => ⟨false, w.table, pre ++ [Event.errGeneric msg]⟩
    | .ok _ =>
      let pre2 := pre ++ [Event.openConn, Event.connected, Event.closeConn, Event.uploading]
      let payload := toSqlFrame df false
      match w.write with
      | .fail msg k =>
          ⟨false, w.table ++ payload.rows.take k, pre2 ++ [Event.errGeneric msg]⟩
      | .ok =>
          ⟨true, w.table ++ payload.rows,
           pre2 ++ [Event.write payload.cols payload.rows,
                    Event.success df.rows.length, Event.ready]⟩

/-- Two consecutive invocations against the same file and database, the
second seeing the table the first left behind. -/
def runTwice (w : World) : RunResult :=
  load_data_to_sql { w with table := (load_data_to_sql w).table }

/-- The message of the exception the `except` clause catches, when one is
raised: the parse error, else the connection error, else the write error. -/
def underlyingMsg (w : World) : Option String :=
  match w.file with
  | .absent => none
  | .malformed msg => some msg
  | .wellFormed _ _ =>
    match w.connect with
    | .error msg => some msg
    | .ok _ =>
      match w.write with
      | .fail msg _ => some msg
      | .ok => none

/-- Classification of each observable step of the routine, used to state the
ordering of steps: parse succeeded, preview emitted, connection opened,
connection verified, rows appended, outcome reported. -/
inductive Step where
  | parsed | previewed | opened | verified | appended | reported
  deriving DecidableEq

/-- The step an event marks, if any: the post-parse summary print marks the
parse, the head print marks the preview, the connection open/verified
events mark the connection steps, the write marks the append, and the
success/error prints mark the outcome report. -/
def Event.step : Event → Option Step
  | .loadedSummary _ _ => some .parsed
  | .previewHead _ => some .previewed
  | .openConn => some .opened
  | .connected => some .verified
  | .write _ _ => some .appended
  | .success _ => some .reported
  | .errGeneric _ => some .reported
  | .errFileNotFound _ => some .reported
  | _ => none

/-- The sequence of marked steps of a trace, in order. -/
def stepsOf (tr : List Event) : List Step := tr.filterMap Event.step

/-- Whether an event is the explicit connection-handle acquisition. -/
def Event.isOpenEvt : Event → Bool | .openConn => true | _ => false

/-- Whether an event is the explicit connection-handle release (the exit of
the `with engine.connect()` block). -/
def Event.isCloseEvt : Event → Bool | .closeConn => true | _ => false

/-- Whether an event is the row-append write operation. -/
def Event.isWriteEvt : Event → Bool | .write _ _ => true | _ => false

/-- A run where the explicitly acquired Connection Handle is released only
after the write operation: the first write occurs strictly before the
handle release, and a release exists. -/
def releasedAfterWrite (tr : List Event) : Prop :=
  tr.findIdx Event.isWriteEvt < tr.findIdx Event.isCloseEvt ∧
  tr.findIdx Event.isCloseEvt < tr.length

instance (tr : List Event) : Decidable (releasedAfterWrite tr) := by
  unfold releasedAfterWrite; infer_instance

/-- A concrete world: a well-formed two-column CSV with two data rows (one
holding a null), a reachable database, a succeeding write, an empty table. -/
def wDemo : World :=
  { file := .wellFormed ["id", "name"] [[some "1", some "Alice"], [some "2", none]],
    connect := .ok (), write := .ok, table := [] }

/-- A concrete world whose configured CSV path does not exist; the table
already holds one row. -/
def wAbsent : World :=
  { file := .absent, connect := .error "connection refused", write := .ok,
    table := [[some "old"]] }

/-- A concrete world whose CSV file exists but cannot be parsed. -/
def wMalformed : World :=
  { file := .malformed "ParserError: unexpected end of data",
    connect := .ok (), write := .ok, table := [] }

/-- A concrete world whose CSV file holds a header row and no data rows;
the table already holds one row. -/
def wHeaderOnly : World :=
  { file := .wellFormed ["customerID", "Churn"] [],
    connect := .ok (), write := .ok, table := [[some "seed", some "No"]] }

/-- Claim C1: for every well-formed input file, a successful run appends to
the Target Table exactly as many rows as the file has data rows (header
excluded), reports success with that same row count, and returns true. -/
theorem load_success_appends_all_rows (w : World) (header : List String) (data : List Row)
    (hf : w.file = .wellFormed header data) (hc : w.connect = .ok ()) (hw : w.write = .ok) :
    (load_data_to_sql w).result = true ∧
    (load_data_to_sql w).table = w.table ++ data ∧
    (load_data_to_sql w).table.length = w.table.length + data.length ∧
    Event.success data.length ∈ (load_data_to_sql w).trace := by
  simp [load_data_to_sql, hf, hc, hw, toSqlFrame]

/-- Claim C1, witness: the successful run on the concrete two-row world. -/
theorem load_success_appends_all_rows_witness :
    (load_data_to_sql wDemo).result = true ∧
    (load_data_to_sql wDemo).table = wDemo.table ++ [[some "1", some "Alice"], [some "2", none]] ∧
    (load_data_to_sql wDemo).table.length = wDemo.table.length + 2 ∧
    Event.success 2 ∈ (load_data_to_sql wDemo).trace :=
  load_success_appends_all_rows wDemo ["id", "name"]
    [[some "1", some "Alice"], [some "2", none]] rfl rfl rfl

/-- Claim C2: when the configured CSV path does not exist, the routine (a
total function — no exception reaches the caller) reports the file-not-found
condition with the offending path as its only event, returns failure, leaves
the Target Table unmodified, and never attempts a database connection. -/
theorem load_missing_file (w : World) (hf : w.file = .absent) :
    (load_data_to_sql w).result = false ∧
    (load_data_to_sql w).table = w.table ∧
    (load_data_to_sql w).trace = [Event.errFileNotFound CSV_PATH] ∧
    Event.connecting ∉ (load_data_to_sql w).trace ∧
    Event.openConn ∉ (load_data_to_sql w).trace := by
  simp [load_data_to_sql, hf]

/-- Claim C2, witness: the run on the concrete missing-file world. -/
theorem load_missing_file_witness :
    (load_data_to_sql wAbsent).result = false ∧
    (load_data_to_sql wAbsent).table = wAbsent.table ∧
    (load_data_to_sql wAbsent).trace = [Event.errFileNotFound CSV_PATH] ∧
    Event.connecting ∉ (load_data_to_sql wAbsent).trace ∧
    Event.openConn ∉ (load_data_to_sql wAbsent).trace :=
  load_missing_file wAbsent rfl

/-- Claim C3: every failing run ends in exactly one of two signals — the
specific file-not-found report, or the single generic error report carrying
the underlying exception's message verbatim — and (the routine being a total
function into `RunResult`) it returns failure rather than raising. -/
theorem load_failure_two_signals (w : World)
    (hfail : (load_data_to_sql w).result = false) :
    (load_data_to_sql w).trace.getLast? = some (Event.errFileNotFound CSV_PATH) ∨
    ∃ msg, (load_data_to_sql w).trace.getLast? = some (Event.errGeneric msg) ∧
      underlyingMsg w = some msg := by
  rcases w with ⟨file, connect, write, table⟩
  cases file with
  | absent => left; rfl
  | malformed msg => right; exact ⟨msg, rfl, rfl⟩
  | wellFormed header data =>
    cases connect with
    | error msg =>
      right
      refine ⟨msg, ?_, rfl⟩
      simp only [load_data_to_sql, List.cons_append, List.append_assoc, List.nil_append]
      rw [← List.cons_append, List.getLast?_append_cons]
      rfl
    | ok u =>
      cases write with
      | fail msg k =>
        right
        refine ⟨msg, ?_, rfl⟩
        simp only [load_data_to_sql, List.cons_append, List.append_assoc, List.nil_append]
        rw [← List.cons_append, List.getLast?_append_cons]
        rfl
      | ok => simp [load_data_to_sql] at hfail

/-- Claim C3, witness: the failing run on the concrete unparsable-file world
ends in the generic signal carrying the parse error's message verbatim. -/
theorem load_failure_two_signals_witness :
    (load_data_to_sql wMalformed).trace.getLast? = some (Event.errFileNotFound CSV_PATH) ∨
    ∃ msg, (load_data_to_sql wMalformed).trace.getLast? = some (Event.errGeneric msg) ∧
      underlyingMsg wMalformed = some msg :=
  load_failure_two_signals wMalformed rfl

/-- Claim C4: every run is additive-only — the rows the Target Table held
before the run are an initial segment of the rows it holds after, so every
pre-existing row is still present, unchanged and in place; nothing is
replaced, upserted, truncated or dropped. -/
theorem load_additive_only (w : World) :
    ∃ appended, (load_data_to_sql w).table = w.table ++ appended := by
  rcases w with ⟨file, connect, write, table⟩
  cases file with
  | absent => exact ⟨[], by simp [load_data_to_sql]⟩
  | malformed msg => exact ⟨[], by simp [load_data_to_sql]⟩
  | wellFormed header data =>
    cases connect with
    | error msg => exact ⟨[], by simp [load_data_to_sql]⟩
    | ok u =>
      cases write with
      | fail msg k => exact ⟨data.take k, by simp [load_data_to_sql, toSqlFrame]⟩
      | ok => exact ⟨data, by simp [load_data_to_sql, toSqlFrame]⟩

/-- Claim C5: the routine is not idempotent — two consecutive successful
invocations on the same file append the file's rows twice, leaving the
table's row count larger by twice the file's data-row count. -/
theorem load_not_idempotent (w : World) (header : List String) (data : List Row)
    (hf : w.file = .wellFormed header data) (hc : w.connect = .ok ()) (hw : w.write = .ok) :
    (runTwice w).result = true ∧
    (runTwice w).table = w.table ++ data ++ data ∧
    (runTwice w).table.length = w.table.length + 2 * data.length := by
  simp [runTwice, load_data_to_sql, hf, hc, hw, toSqlFrame]
  omega

/-- Claim C5, witness: running twice on the concrete two-row world leaves
four rows, the file's two rows duplicated. -/
theorem load_not_idempotent_witness :
    (runTwice wDemo).result = true ∧
    (runTwice wDemo).table = wDemo.table ++ [[some "1", some "Alice"], [some "2", none]]
      ++ [[some "1", some "Alice"], [some "2", none]] ∧
    (runTwice wDemo).table.length = wDemo.table.length + 2 * 2 :=
  load_not_idempotent wDemo ["id", "name"]
    [[some "1", some "Alice"], [some "2", none]] rfl rfl rfl

/-- Claim C6: on a successful load the write sends exactly the parsed
header's columns, in order, with exactly the parsed rows — the `index=False`
frame is the parsed frame itself, so no column is renamed, reordered,
dropped or added, and no synthetic index column is written. -/
theorem load_written_columns_match_header (w : World) (header : List String) (data : List Row)
    (hf : w.file = .wellFormed header data) (hc : w.connect = .ok ()) (hw : w.write = .ok) :
    Event.write header data ∈ (load_data_to_sql w).trace ∧
    (toSqlFrame ⟨header, data⟩ false).cols = header ∧
    (∀ c r, Event.write c r ∈ (load_data_to_sql w).trace → c = header ∧ r = data) := by
  rcases w with ⟨file, connect, write, table⟩
  simp only at hf hc hw
  subst hf; subst hc; subst hw
  by_cases hm : missingCounts ⟨header, data⟩ = [] <;>
    refine ⟨?_, rfl, ?_⟩ <;>
    simp [load_data_to_sql, previewTrace, hm, toSqlFrame]

/-- Claim C6, witness: the successful run on the concrete two-column world
writes exactly the header `id`, `name`. -/
theorem load_written_columns_match_header_witness :
    Event.write ["id", "name"] [[some "1", some "Alice"], [some "2", none]]
      ∈ (load_data_to_sql wDemo).trace ∧
    (toSqlFrame ⟨["id", "name"], [[some "1", some "Alice"], [some "2", none]]⟩ false).cols
      = ["id", "name"] ∧
    (∀ c r, Event.write c r ∈ (load_data_to_sql wDemo).trace →
      c = ["id", "name"] ∧ r = [[some "1", some "Alice"], [some "2", none]]) :=
  load_written_columns_match_header wDemo ["id", "name"]
    [[some "1", some "Alice"], [some "2", none]] rfl rfl rfl

/-- Claim C7: the marked steps of every run occur in the fixed order
parse → preview → open connection → verify → append → report (the step
sequence is a sublist of that chain); a connection is only ever opened when
the file parsed successfully; and the table only changes in runs where the
connection was opened and verified. -/
theorem load_step_order (w : World) :
    List.Sublist (stepsOf (load_data_to_sql w).trace)
      [Step.parsed, Step.previewed, Step.opened, Step.verified, Step.appended, Step.reported] ∧
    (Step.opened ∈ stepsOf (load_data_to_sql w).trace →
      ∃ header data, w.file = FileState.wellFormed header data) ∧
    ((load_data_to_sql w).table ≠ w.table →
      Step.opened ∈ stepsOf (load_data_to_sql w).trace ∧
      Step.verified ∈ stepsOf (load_data_to_sql w).trace) := by
  rcases w with ⟨file, connect, write, table⟩
  cases file with
  | absent =>
    refine ⟨?_, ?_, ?_⟩ <;> simp [stepsOf, load_data_to_sql, Event.step]
  | malformed msg =>
    refine ⟨?_, ?_, ?_⟩ <;> simp [stepsOf, load_data_to_sql, Event.step]
  | wellFormed header data =>
    have hsteps : ∀ tail : List Event,
        stepsOf (Event.reading :: (previewTrace ⟨header, data⟩ ++ tail)) =
          [Step.parsed, Step.previewed] ++ stepsOf tail := by
      intro tail
      by_cases hm : missingCounts ⟨header, data⟩ = [] <;>
        simp [stepsOf, previewTrace, hm, Event.step]
    cases connect with
    | error msg =>
      refine ⟨?_, fun _ => ⟨header, data, rfl⟩, ?_⟩
      · simp only [load_data_to_sql, List.cons_append, List.append_assoc, List.nil_append]
        rw [hsteps]
        simp [stepsOf, Event.step]
      · simp [load_data_to_sql]
    | ok u =>
      cases write with
      | fail msg k =>
        refine ⟨?_, fun _ => ⟨header, data, rfl⟩, fun _ => ?_⟩
        · simp only [load_data_to_sql, List.cons_append, List.append_assoc, List.nil_append]
          rw [hsteps]
          simp [stepsOf, Event.step]
        · simp only [load_data_to_sql, List.cons_append, List.append_assoc, List.nil_append]
          rw [hsteps]
          simp [stepsOf, Event.step]
      | ok =>
        refine ⟨?_, fun _ => ⟨header, data, rfl⟩, fun _ => ?_⟩
        · simp only [load_data_to_sql, List.cons_append, List.append_assoc, List.nil_append]
          rw [hsteps]
          simp [stepsOf, Event.step, toSqlFrame]
        · simp only [load_data_to_sql, List.cons_append, List.append_assoc, List.nil_append]
          rw [hsteps]
          simp [stepsOf, Event.step]

/-- Claim C8, counterexample: in the concrete successful run the write
occurs exactly once, yet the explicitly acquired Connection Handle is
released strictly before that write — refuting the claim that the handle is
used for the write and released only after the write completes or fails. -/
theorem load_handle_release_cex :
    List.countP Event.isWriteEvt (load_data_to_sql wDemo).trace = 1 ∧
    Event.closeConn ∈ (load_data_to_sql wDemo).trace ∧
    ¬ releasedAfterWrite (load_data_to_sql wDemo).trace := by decide

/-- Claim C8, amended: per invocation at most one Connection Handle is
explicitly acquired, it is released exactly when it was acquired, and it is
used for zero write operations — every write event lies strictly after the
handle's release, the write going through the engine instead. -/
theorem load_handle_scoped (w : World) :
    List.countP Event.isOpenEvt (load_data_to_sql w).trace ≤ 1 ∧
    List.countP Event.isCloseEvt (load_data_to_sql w).trace ≤ 1 ∧
    (Event.openConn ∈ (load_data_to_sql w).trace ↔ Event.closeConn ∈ (load_data_to_sql w).trace) ∧
    ∀ c r, Event.write c r ∉ List.takeWhile (fun e => !Event.isCloseEvt e) (load_data_to_sql w).trace := by
  rcases w with ⟨file, connect, write, table⟩
  cases file with
  | absent =>
    refine ⟨?_, ?_, ?_, ?_⟩ <;>
      simp [load_data_to_sql, Event.isOpenEvt, Event.isCloseEvt, List.takeWhile]
  | malformed msg =>
    refine ⟨?_, ?_, ?_, ?_⟩ <;>
      simp [load_data_to_sql, Event.isOpenEvt, Event.isCloseEvt, List.takeWhile]
  | wellFormed header data =>
    by_cases hm : missingCounts ⟨header, data⟩ = [] <;>
    cases connect with
    | error msg =>
      refine ⟨?_, ?_, ?_, ?_⟩ <;>
        simp [load_data_to_sql, previewTrace, hm, Event.isOpenEvt, Event.isCloseEvt,
          List.takeWhile]
    | ok u =>
      cases write with
      | fail msg k =>
        refine ⟨?_, ?_, ?_, ?_⟩ <;>
          simp [load_data_to_sql, previewTrace, hm, Event.isOpenEvt, Event.isCloseEvt,
            List.takeWhile]
      | ok =>
        refine ⟨?_, ?_, ?_, ?_⟩ <;>
          simp [load_data_to_sql, previewTrace, hm, Event.isOpenEvt, Event.isCloseEvt,
            List.takeWhile, toSqlFrame]

/-- Claim C9: the preview is purely observational — the boolean result and
the final table of every run coincide with those of the same routine with
the preview step removed, and any write event carries exactly the rows as
parsed from the file, untouched by the preview. -/
theorem load_preview_observational (w : World) :
    (load_data_to_sql w).result = (loadNoPreview w).result ∧
    (load_data_to_sql w).table = (loadNoPreview w).table ∧
    ∀ c r, Event.write c r ∈ (load_data_to_sql w).trace →
      ∃ header data, w.file = FileState.wellFormed header data ∧ c = header ∧ r = data := by
  rcases w with ⟨file, connect, write, table⟩
  cases file with
  | absent => refine ⟨rfl, rfl, ?_⟩; simp [load_data_to_sql]
  | malformed msg => refine ⟨rfl, rfl, ?_⟩; simp [load_data_to_sql]
  | wellFormed header data =>
    by_cases hm : missingCounts ⟨header, data⟩ = [] <;>
    cases connect with
    | error msg =>
      refine ⟨?_, ?_, ?_⟩ <;>
        simp [load_data_to_sql, loadNoPreview, previewTrace, hm]
    | ok u =>
      cases write with
      | fail msg k =>
        refine ⟨?_, ?_, ?_⟩ <;>
          simp [load_data_to_sql, loadNoPreview, previewTrace, hm]
      | ok =>
        refine ⟨?_, ?_, ?_⟩ <;>
          simp [load_data_to_sql, loadNoPreview, previewTrace, hm, toSqlFrame]

/-- Claim C10: a header-only file (zero data rows) still succeeds — the
preview reports 0 rows, the write sends the header with an empty row list,
the table is unchanged, and the routine returns true. -/
theorem load_header_only_succeeds (w : World) (header : List String)
    (hf : w.file = .wellFormed header []) (hc : w.connect = .ok ()) (hw : w.write = .ok) :
    (load_data_to_sql w).result = true ∧
    (load_data_to_sql w).table = w.table ∧
    Event.loadedSummary 0 header.length ∈ (load_data_to_sql w).trace ∧
    Event.write header [] ∈ (load_data_to_sql w).trace := by
  have hm : missingCounts ⟨header, []⟩ = [] := by
    simp [missingCounts, colNullCount, List.filter_eq_nil_iff]
    intros; omega
  simp [load_data_to_sql, hf, hc, hw, toSqlFrame, previewTrace, hm]

/-- Claim C10, witness: the run on the concrete header-only world. -/
theorem load_header_only_succeeds_witness :
    (load_data_to_sql wHeaderOnly).result = true ∧
    (load_data_to_sql wHeaderOnly).table = wHeaderOnly.table ∧
    Event.loadedSummary 0 2 ∈ (load_data_to_sql wHeaderOnly).trace ∧
    Event.write ["customerID", "Churn"] [] ∈ (load_data_to_sql wHeaderOnly).trace :=
  load_header_only_succeeds wHeaderOnly ["customerID", "Churn"] rfl rfl rfl

end ChurnPredictor
